import Mathlib

/-!
Verification development for the ppt2video pipeline (slide export, notes
extraction, narration synthesis, duration probing, video segment building,
concatenation, subtitle generation and burn-in, and the orchestrating
controller).  External effects (subprocess calls, the filesystem, the TTS
and ASR backends) are modelled as explicit oracle parameters; rational
numbers stand in for the Python floats, since every comparison the code
performs on durations is against small exact decimal constants.
-/

namespace PPTVideo

/-! ## Duration probe — `get_audio_duration` in `ppt_processor.py` -/

/-- One stream entry of the ffprobe JSON metadata, as consumed by
`get_audio_duration`: whether its `codec_type` is `audio`, and its
`duration` field (`none` = field absent, `some none` = present but not
parseable as a float, `some (some q)` = parses to the value `q`). -/
structure ProbeStream where
  isAudio : Bool
  dur : Option (Option ℚ)
  deriving DecidableEq, Repr

/-- The ffprobe JSON metadata: the `format.duration` field (same encoding
as `ProbeStream.dur`) and the list of streams. -/
structure ProbeMetadata where
  formatDur : Option (Option ℚ)
  streams : List ProbeStream
  deriving DecidableEq, Repr

/-- The stream scan of `get_audio_duration`: the first audio stream whose
`duration` field is present and parses is taken; audio streams with a
missing or unparseable `duration` are skipped (the code logs a warning and
keeps scanning). -/
def streamsDuration : List ProbeStream → Option ℚ
  | [] => none
  | s :: rest =>
    match s.isAudio, s.dur with
    | true, some (some q) => some q
    | _, _ => streamsDuration rest

/-- Duration extraction from the parsed metadata: `format.duration` is
preferred when present and parseable, otherwise the streams are scanned. -/
def parsedDuration (md : ProbeMetadata) : Option ℚ :=
  match md.formatDur with
  | some (some q) => some q
  | _ => streamsDuration md.streams

/-- The final validation of `get_audio_duration`: a parsed duration is
kept only when it is non-negative (`duration >= 0`) and not below `0.01`
seconds; a negative or too-short duration, or no duration at all, yields
`None`. -/
def validateDuration (d : Option ℚ) : Option ℚ :=
  match d with
  | some d => if 0 ≤ d then (if d < 1/100 then none else some d) else none
  | none => none

/-- `get_audio_duration fileIsFile ffprobeFound probe`: the probe of
`ppt_processor.py`.  `fileIsFile` is `filepath.is_file()`, `ffprobeFound`
is whether the ffprobe executable was resolved, and `probe` is the outcome
of the subprocess-plus-JSON-parse (`Except.error` covers a non-zero exit,
an unparseable JSON output, a missing executable and any other exception,
all of which return `None`). -/
def get_audio_duration (fileIsFile ffprobeFound : Bool)
    (probe : Except Unit ProbeMetadata) : Option ℚ :=
  if !fileIsFile then none
  else if !ffprobeFound then none
  else
    match probe with
    | .error _ => none
    | .ok md => validateDuration (parsedDuration md)

/-! ## Theorems for claim C9 -/

/-- C9: `get_audio_duration` returns `None` — never `0.0` and never a value
below `0.01` — when the file is missing, ffprobe is unavailable, the probe
subprocess or its JSON parse fails, the metadata yields no parseable
duration, or the parsed duration is negative or below one hundredth of a
second; any returned value is at least `0.01` seconds. -/
theorem C9_probe_none_or_valid :
    (∀ f p pr q, get_audio_duration f p pr = some q → 1/100 ≤ q) ∧
    (∀ p pr, get_audio_duration false p pr = none) ∧
    (∀ f pr, get_audio_duration f false pr = none) ∧
    (∀ f p, get_audio_duration f p (.error ()) = none) ∧
    (∀ f p md, parsedDuration md = none →
      get_audio_duration f p (.ok md) = none) ∧
    (∀ f p md d, parsedDuration md = some d → d < 1/100 →
      get_audio_duration f p (.ok md) = none) := by
  have key : ∀ d q, validateDuration d = some q → 1/100 ≤ q := by
    intro d q h
    rcases d with _ | d
    · simp [validateDuration] at h
    · simp only [validateDuration] at h
      by_cases h0 : 0 ≤ d
      · rw [if_pos h0] at h
        by_cases h1 : d < 1/100
        · rw [if_pos h1] at h; exact absurd h (by simp)
        · rw [if_neg h1] at h
          cases h
          exact le_of_not_lt h1
      · rw [if_neg h0] at h; exact absurd h (by simp)
  refine ⟨?_, ?_, ?_, ?_, ?_, ?_⟩
  · intro f p pr q h
    cases f <;> cases p <;> simp [get_audio_duration] at h
    rcases pr with _ | md
    · simp at h
    · exact key _ _ h
  · intro p pr; simp [get_audio_duration]
  · intro f pr; cases f <;> simp [get_audio_duration]
  · intro f p; cases f <;> cases p <;> simp [get_audio_duration]
  · intro f p md h
    cases f <;> cases p <;> simp [get_audio_duration, h, validateDuration]
  · intro f p md d h hd
    cases f <;> cases p <;>
      simp [get_audio_duration, h, validateDuration, if_pos hd] <;>
      intro _ <;> simpa [one_div] using hd

/-- Witness for C9 at concrete inputs: a valid 5-second probe is returned
and is at least `0.01`; a probe on a missing file returns `None`; a probe
whose metadata parses to `0.005` s returns `None`. -/
theorem C9_probe_witness :
    (1/100 ≤ (5 : ℚ)) ∧
    get_audio_duration false true (.error ()) = none ∧
    get_audio_duration true true
      (.ok ⟨some (some (5/1000)), []⟩) = none :=
  ⟨C9_probe_none_or_valid.1 true true (.ok ⟨some (some 5), []⟩) 5
     (by norm_num [get_audio_duration, parsedDuration, validateDuration]),
   C9_probe_none_or_valid.2.1 true (.error ()),
   C9_probe_none_or_valid.2.2.2.2.2 true true ⟨some (some (5/1000)), []⟩
     (5/1000) rfl (by norm_num)⟩

/-! ## TTS manager — `generate_segment_audio` in `tts_manager_edge.py` -/

/-- The blank-text test used by both `generate_audio_segments` and
`generate_segment_audio`: Python's `not text or text.isspace()`. -/
def textIsBlank (s : String) : Bool :=
  s.isEmpty || s.toList.all (·.isWhitespace)

/-- Outcome of one `generate_segment_audio` call: whether it returned
`True`, whether the Edge-TTS synthesis was actually attempted, and whether
an audio file is left on disk afterwards. -/
structure TtsCallResult where
  succeeded : Bool
  synthesisAttempted : Bool
  fileOnDisk : Bool
  deriving DecidableEq, Repr

/-- `generate_segment_audio` of `tts_manager_edge.py`.  `voiceKnown` is
membership of the voice id in `KNOWN_EDGE_VOICES`; `synthRaises` is
whether the synthesis call raises (network error, timeout, or any other
exception — all caught, the partial file unlinked, `False` returned);
`fileSize` is the size of the file found at the output path afterwards
(`none` = no file).  A file of at most 100 bytes is treated as failure and
unlinked. -/
def generate_segment_audio (voiceKnown : Bool) (text : String)
    (synthRaises : Bool) (fileSize : Option Nat) : TtsCallResult :=
  if !voiceKnown then ⟨false, false, false⟩
  else if textIsBlank text then ⟨false, false, false⟩
  else if synthRaises then ⟨false, true, false⟩
  else
    match fileSize with
    | some n => if n > 100 then ⟨true, true, true⟩ else ⟨false, true, false⟩
    | none => ⟨false, true, false⟩

/-! ## Audio synthesis loop — `generate_audio_segments` in
`ppt_processor.py` -/

/-- Outcome of one iteration of the `generate_audio_segments` loop:
the `(audio path, duration)` pair appended to `audio_results`, whether the
TTS backend was invoked for this slide, and whether an audio file was
created for it. -/
structure SegmentOutcome where
  result : Option String × Option ℚ
  ttsInvoked : Bool
  fileCreated : Bool
  deriving DecidableEq, Repr

/-- The canonical per-segment audio file name (`segment_{i+1}.mp3`). -/
def segmentFileName (i : Nat) : String :=
  "segment_" ++ toString (i + 1) ++ ".mp3"

/-- One iteration of the `generate_audio_segments` loop for 0-based slide
index `i` with notes text `text`.  `ttsOk` is the boolean returned by
`generate_segment_audio`; `probe` is the `get_audio_duration` result on
the generated file.  Blank text skips TTS entirely and records
`(None, None)`; a successful synthesis whose probed duration is at most
`0.01` s is normalised to `0.0` with the path kept; a successful synthesis
whose duration cannot be probed keeps the path with a `None` duration; a
failed synthesis records `(None, None)`. -/
def audioSegmentStep (ttsOk : Bool) (probe : Option ℚ) (i : Nat)
    (text : String) : SegmentOutcome :=
  if textIsBlank text then ⟨(none, none), false, false⟩
  else if ttsOk then
    match probe with
    | some d =>
        if d > 1/100 then ⟨(some (segmentFileName i), some d), true, true⟩
        else ⟨(some (segmentFileName i), some 0), true, true⟩
    | none => ⟨(some (segmentFileName i), none), true, true⟩
  else ⟨(none, none), true, false⟩

/-- The `generate_audio_segments` loop, carrying the 0-based index. -/
def generate_audio_segments_from (ttsOk : Nat → Bool)
    (probe : Nat → Option ℚ) : Nat → List String →
    List (Option String × Option ℚ)
  | _, [] => []
  | i, text :: rest =>
      (audioSegmentStep (ttsOk i) (probe i) i text).result ::
        generate_audio_segments_from ttsOk probe (i + 1) rest

/-- `generate_audio_segments` of `ppt_processor.py`: one `(path, duration)`
pair per notes entry, in order.  `ttsOk i` and `probe i` are the oracle
outcomes of the TTS call and the duration probe for slide index `i`. -/
def generate_audio_segments (ttsOk : Nat → Bool) (probe : Nat → Option ℚ)
    (notes : List String) : List (Option String × Option ℚ) :=
  generate_audio_segments_from ttsOk probe 0 notes

theorem generate_audio_segments_from_length (ttsOk : Nat → Bool)
    (probe : Nat → Option ℚ) (k : Nat) (notes : List String) :
    (generate_audio_segments_from ttsOk probe k notes).length =
      notes.length := by
  induction notes generalizing k with
  | nil => rfl
  | cons t rest ih => simp [generate_audio_segments_from, ih]

theorem generate_audio_segments_from_get (ttsOk : Nat → Bool)
    (probe : Nat → Option ℚ) (k : Nat) (notes : List String) (i : Nat) :
    (generate_audio_segments_from ttsOk probe k notes)[i]? =
      (notes[i]?).map fun t =>
        (audioSegmentStep (ttsOk (k + i)) (probe (k + i)) (k + i) t).result := by
  induction notes generalizing k i with
  | nil => simp [generate_audio_segments_from]
  | cons t rest ih =>
    cases i with
    | zero => simp [generate_audio_segments_from]
    | succ j =>
      simp only [generate_audio_segments_from, List.getElem?_cons_succ]
      rw [ih]
      have : k + (j + 1) = (k + 1) + j := by omega
      rw [this]

theorem generate_audio_segments_get (ttsOk : Nat → Bool)
    (probe : Nat → Option ℚ) (notes : List String) (i : Nat) :
    (generate_audio_segments ttsOk probe notes)[i]? =
      (notes[i]?).map fun t =>
        (audioSegmentStep (ttsOk i) (probe i) i t).result := by
  have h := generate_audio_segments_from_get ttsOk probe 0 notes i
  simpa [generate_audio_segments] using h

/-! ## Record assembly and pipeline — `process_presentation` in
`ppt_processor.py` -/

/-- One aligned slide record (`slide_data` dictionary) handed to the
video-synthesis stage.  `audio_duration` is modelled as the Python value
stored in the dictionary: `some q` for a float `q`, `none` for `None`. -/
structure SlideRecord where
  slide_number : Nat
  image_path : Option String
  notes : String
  audio_path : Option String
  audio_duration : Option ℚ
  deriving DecidableEq, Repr

/-- The duration normalisation of step 5 of `process_presentation`:
`final_audio_duration` starts at `0.0`; a raw duration above `0.01` is
kept, a raw duration at most `0.01` is stored as `0.0`, and a missing raw
duration (`None`) leaves the default `0.0` in place. -/
def finalDuration (raw : Option ℚ) : ℚ :=
  match raw with
  | some d => if d > 1/100 then d else 0
  | none => 0

/-- The record-assembly loop of step 5 of `process_presentation`,
carrying the 0-based index: one record per notes entry, with positional
lookups into the image list and the audio results. -/
def process_records_from (image_paths : List String)
    (audio_results : List (Option String × Option ℚ)) :
    Nat → List String → List SlideRecord
  | _, [] => []
  | i, note :: rest =>
      { slide_number := i + 1
        image_path := image_paths[i]?
        notes := note
        audio_path := (audio_results[i]?).bind (·.1)
        audio_duration :=
          some (finalDuration ((audio_results[i]?).bind (·.2))) } ::
        process_records_from image_paths audio_results (i + 1) rest

/-- Step 5 of `process_presentation`: assemble the final record list. -/
def process_records (image_paths : List String)
    (audio_results : List (Option String × Option ℚ))
    (notes_list : List String) : List SlideRecord :=
  process_records_from image_paths audio_results 0 notes_list

theorem process_records_from_length (image_paths : List String)
    (audio_results : List (Option String × Option ℚ)) (k : Nat)
    (notes_list : List String) :
    (process_records_from image_paths audio_results k notes_list).length =
      notes_list.length := by
  induction notes_list generalizing k with
  | nil => rfl
  | cons t rest ih => simp [process_records_from, ih]

theorem process_records_from_get (image_paths : List String)
    (audio_results : List (Option String × Option ℚ)) (k : Nat)
    (notes_list : List String) (i : Nat) :
    (process_records_from image_paths audio_results k notes_list)[i]? =
      (notes_list[i]?).map fun note =>
        { slide_number := k + i + 1
          image_path := image_paths[k + i]?
          notes := note
          audio_path := (audio_results[k + i]?).bind (·.1)
          audio_duration :=
            some (finalDuration ((audio_results[k + i]?).bind (·.2))) } := by
  induction notes_list generalizing k i with
  | nil => simp [process_records_from]
  | cons t rest ih =>
    cases i with
    | zero => simp [process_records_from]
    | succ j =>
      simp only [process_records_from, List.getElem?_cons_succ]
      rw [ih]
      have : k + (j + 1) = (k + 1) + j := by omega
      rw [this]

theorem process_records_get (image_paths : List String)
    (audio_results : List (Option String × Option ℚ))
    (notes_list : List String) (i : Nat) :
    (process_records image_paths audio_results notes_list)[i]? =
      (notes_list[i]?).map fun note =>
        { slide_number := i + 1
          image_path := image_paths[i]?
          notes := note
          audio_path := (audio_results[i]?).bind (·.1)
          audio_duration :=
            some (finalDuration ((audio_results[i]?).bind (·.2))) } := by
  have h := process_records_from_get image_paths audio_results 0 notes_list i
  simpa [process_records] using h

/-- `process_presentation` of `ppt_processor.py`, with the external stages
as oracles: `fileIsFile` is the input-file check, `voiceProvided` the
mandatory voice id, `mkdirOk` the temp-directory creation,
`exportResult` the combined outcome of the export strategies (`none` or
an empty list = all strategies failed, which aborts), `notesResult` the
outcome of `extract_speaker_notes`, and `ttsOk`/`probe` the per-slide TTS
and duration-probe oracles.  When image and notes counts differ, both
lists are truncated to the minimum; the result is one record per
remaining notes entry. -/
def process_presentation (fileIsFile voiceProvided mkdirOk : Bool)
    (exportResult : Option (List String))
    (notesResult : Option (List String))
    (ttsOk : Nat → Bool) (probe : Nat → Option ℚ) :
    Option (List SlideRecord) :=
  if !fileIsFile then none
  else if !voiceProvided then none
  else if !mkdirOk then none
  else
    match exportResult with
    | none => none
    | some imgs =>
      if imgs.isEmpty then none
      else
        match notesResult with
        | none => none
        | some ns =>
          let m := min imgs.length ns.length
          let pair := if imgs.length ≠ ns.length
            then (imgs.take m, ns.take m) else (imgs, ns)
          let ars := generate_audio_segments ttsOk probe pair.2
          if ars.length ≠ pair.2.length then none
          else some (process_records pair.1 ars pair.2)

theorem process_presentation_eq (imgs ns : List String)
    (ttsOk : Nat → Bool) (probe : Nat → Option ℚ) (h : imgs ≠ []) :
    process_presentation true true true (some imgs) (some ns) ttsOk probe =
      some (process_records (imgs.take (min imgs.length ns.length))
        (generate_audio_segments ttsOk probe
          (ns.take (min imgs.length ns.length)))
        (ns.take (min imgs.length ns.length))) := by
  have hne : imgs.isEmpty = false := by
    cases imgs with
    | nil => exact absurd rfl h
    | cons a l => rfl
  have hlen : ∀ l : List String,
      (generate_audio_segments ttsOk probe l).length = l.length :=
    fun l => generate_audio_segments_from_length ttsOk probe 0 l
  unfold process_presentation
  simp only [Bool.not_true, Bool.false_eq_true, if_false, hne]
  by_cases heq : imgs.length = ns.length
  · simp only [heq, ne_eq, not_true_eq_false, if_false, min_self,
      List.take_length, hlen]
    rw [← heq, List.take_length]
  · simp only [ne_eq, heq, not_false_eq_true, if_true, hlen]
    simp

/-! ## Theorems for claim C4 -/

/-- C4: with both the export and the notes stage succeeding (image list
`imgs` non-empty, notes list `ns`), `process_presentation` produces a
record list of length `min (imgs.length) (ns.length)`; record `i`
(0-based) carries `slide_number = i + 1` and the position-`i` entries of
the image and notes lists, so the surplus entries of the longer list are
dropped and nothing is wrapped or cycled. -/
theorem C4_aligned_records (imgs ns : List String) (ttsOk : Nat → Bool)
    (probe : Nat → Option ℚ) (h : imgs ≠ []) :
    ∃ recs, process_presentation true true true (some imgs) (some ns)
        ttsOk probe = some recs ∧
      recs.length = min imgs.length ns.length ∧
      ∀ i (hi : i < recs.length),
        (recs.get ⟨i, hi⟩).slide_number = i + 1 ∧
        (recs.get ⟨i, hi⟩).image_path = imgs[i]? ∧
        (recs.get ⟨i, hi⟩).notes = (ns[i]?).getD "" := by
  set m := min imgs.length ns.length with hm
  set A := generate_audio_segments ttsOk probe (ns.take m) with hA
  set recs := process_records (imgs.take m) A (ns.take m) with hrecs
  have hmn : m ≤ ns.length := min_le_right _ _
  have hlen : recs.length = m := by
    rw [hrecs, process_records, process_records_from_length,
      List.length_take]
    omega
  refine ⟨recs, process_presentation_eq imgs ns ttsOk probe h, hlen, ?_⟩
  intro i hi
  have him : i < m := hlen ▸ hi
  have hns2 : (ns.take m)[i]? = ns[i]? := List.getElem?_take_of_lt him
  have hin : i < ns.length := lt_of_lt_of_le him hmn
  have hsome : ns[i]? = some ns[i] := List.getElem?_eq_getElem hin
  have hget := process_records_get (imgs.take m) A (ns.take m) i
  rw [hns2, hsome] at hget
  simp only [Option.map_some'] at hget
  rw [← hrecs] at hget
  have h3 := List.getElem?_eq_getElem hi
  have hrec : recs.get ⟨i, hi⟩ =
      { slide_number := i + 1
        image_path := (imgs.take m)[i]?
        notes := ns[i]
        audio_path := (A[i]?).bind (·.1)
        audio_duration := some (finalDuration ((A[i]?).bind (·.2))) } := by
    rw [List.get_eq_getElem]
    exact Option.some.inj (h3.symm.trans hget)
  rw [hrec]
  refine ⟨rfl, ?_, ?_⟩
  · exact List.getElem?_take_of_lt him
  · simp [hsome]

/-- Witness for C4: three images and two notes yield two records with
slide numbers 1 and 2, carrying the first two images and both notes. -/
theorem C4_aligned_records_witness :
    ∃ recs, process_presentation true true true
        (some ["slide_1.png", "slide_2.png", "slide_3.png"])
        (some ["alpha", "beta"]) (fun _ => false) (fun _ => none) =
        some recs ∧
      recs.length = min 3 2 ∧
      ∀ i (hi : i < recs.length),
        (recs.get ⟨i, hi⟩).slide_number = i + 1 ∧
        (recs.get ⟨i, hi⟩).image_path =
          ["slide_1.png", "slide_2.png", "slide_3.png"][i]? ∧
        (recs.get ⟨i, hi⟩).notes = ((["alpha", "beta"] : List String)[i]?).getD "" := by
  have h := C4_aligned_records ["slide_1.png", "slide_2.png", "slide_3.png"]
    ["alpha", "beta"] (fun _ => false) (fun _ => none) (by simp)
  simpa using h

/-! ## Theorems for claim C5 -/

/-- C5: a slide whose notes text is empty or whitespace-only never reaches
the TTS backend: the `generate_audio_segments` loop records
`(None, None)` for it, invokes no TTS and creates no file; and
`generate_segment_audio` itself returns `False` for blank text without
attempting synthesis or leaving a file. -/
theorem C5_blank_notes_skip :
    (∀ (ttsOk : Bool) (probe : Option ℚ) (i : Nat) (text : String),
      textIsBlank text = true →
      audioSegmentStep ttsOk probe i text = ⟨(none, none), false, false⟩) ∧
    (∀ (ttsOk : Nat → Bool) (probe : Nat → Option ℚ)
      (notes : List String) (i : Nat) (text : String),
      notes[i]? = some text → textIsBlank text = true →
      (generate_audio_segments ttsOk probe notes)[i]? =
        some (none, none)) ∧
    (∀ (voiceKnown : Bool) (text : String) (synthRaises : Bool)
      (fileSize : Option Nat), textIsBlank text = true →
      generate_segment_audio voiceKnown text synthRaises fileSize =
        ⟨false, false, false⟩) := by
  have step : ∀ (ttsOk : Bool) (probe : Option ℚ) (i : Nat)
      (text : String), textIsBlank text = true →
      audioSegmentStep ttsOk probe i text = ⟨(none, none), false, false⟩ := by
    intro ttsOk probe i text h
    simp [audioSegmentStep, h]
  refine ⟨step, ?_, ?_⟩
  · intro ttsOk probe notes i text hn hb
    rw [generate_audio_segments_get, hn]
    simp [step (ttsOk i) (probe i) i text hb]
  · intro voiceKnown text synthRaises fileSize h
    cases voiceKnown <;> simp [generate_segment_audio, h]

/-- Witness for C5: the whitespace-only notes entry of a concrete run
yields `(None, None)` and a blank-text TTS call returns failure without
synthesis or a file. -/
theorem C5_blank_notes_skip_witness :
    (generate_audio_segments (fun _ => true) (fun _ => some 2)
      ["hello", " "])[1]? = some (none, none) ∧
    generate_segment_audio true " " false (some 4000) =
      ⟨false, false, false⟩ :=
  ⟨C5_blank_notes_skip.2.1 (fun _ => true) (fun _ => some 2) ["hello", " "]
     1 " " rfl (by decide),
   C5_blank_notes_skip.2.2 true " " false (some 4000) (by decide)⟩

/-! ## Theorems for claim C1 -/

/-- C1 counterexample: a run whose only slide has non-blank notes, a
successful TTS synthesis, and a duration probe that returns no value
(`none`) produces a record whose `audio_duration` is `some 0` — the value
`0.0` — not `none` as the claim requires: `process_presentation` collapses
the unmeasured duration to `0.0` before handing the record to the
video-synthesis stage. -/
theorem C1_unmeasured_duration_counterexample :
    process_presentation true true true (some ["slide_1.png"])
      (some ["hello"]) (fun _ => true) (fun _ => none) =
      some [{ slide_number := 1, image_path := some "slide_1.png",
              notes := "hello", audio_path := some "segment_1.mp3",
              audio_duration := some 0 }] := by
  decide

/-- C1 amended: when the duration probe returns no value for a slide with
non-blank notes and successful synthesis, `generate_audio_segments`
records `(path, None)`, and the record-assembly step of
`process_presentation` then stores `audio_duration = 0.0` (not `None`) in
the slide record, keeping the audio path. -/
theorem C1_unmeasured_duration_stored_as_zero :
    (∀ (ttsOk : Bool) (i : Nat) (text : String),
      textIsBlank text = false → ttsOk = true →
      audioSegmentStep ttsOk none i text =
        ⟨(some (segmentFileName i), none), true, true⟩) ∧
    (∀ (imgs : List String) (ars : List (Option String × Option ℚ))
      (ns : List String) (i : Nat) (p : String) (note : String),
      ars[i]? = some (some p, none) → ns[i]? = some note →
      (process_records imgs ars ns)[i]? = some
        { slide_number := i + 1, image_path := imgs[i]?, notes := note,
          audio_path := some p, audio_duration := some 0 }) := by
  constructor
  · intro ttsOk i text hb ht
    subst ht
    simp [audioSegmentStep, hb]
  · intro imgs ars ns i p note ha hn
    have hget := process_records_from_get imgs ars 0 ns i
    rw [hn] at hget
    simp only [Nat.zero_add, Option.map_some] at hget
    rw [process_records, hget, ha]
    simp [finalDuration]

/-- Witness for C1's amended statement at concrete inputs. -/
theorem C1_unmeasured_duration_witness :
    audioSegmentStep true none 0 "hello" =
      ⟨(some (segmentFileName 0), none), true, true⟩ ∧
    (process_records ["slide_1.png"] [(some "segment_1.mp3", none)]
      ["hello"])[0]? = some
      { slide_number := 1, image_path := some "slide_1.png",
        notes := "hello", audio_path := some "segment_1.mp3",
        audio_duration := some 0 } :=
  ⟨C1_unmeasured_duration_stored_as_zero.1 true 0 "hello" (by decide) rfl,
   C1_unmeasured_duration_stored_as_zero.2 ["slide_1.png"]
     [(some "segment_1.mp3", none)] ["hello"] 0 "segment_1.mp3" "hello"
     rfl rfl⟩

/-! ## Video synthesis — `video_synthesizer.py` -/

/-- The per-slide data consumed by `create_video_from_data`: the
dictionary fields it reads, together with the filesystem facts it checks
(`imageOnDisk` = `Path(image_path).is_file()`, `audioOnDisk` =
`Path(audio_path).is_file()`, `audioSize` = `stat().st_size`). -/
structure SlideInput where
  slide_number : Nat
  image_path : Option String
  imageOnDisk : Bool
  audio_path : Option String
  audioOnDisk : Bool
  audioSize : Nat
  audio_duration : Option ℚ
  deriving DecidableEq, Repr

/-- The image check of the segment loop: `image_path` present and the
file exists; otherwise the slide is skipped. -/
def imageValid (d : SlideInput) : Bool :=
  d.image_path.isSome && d.imageOnDisk

/-- The audio-path resolution of the segment loop:
`Path(audio_path_str) if audio_path_str and Path(...).is_file() else
None`. -/
def resolvedAudioPath (d : SlideInput) : Option String :=
  match d.audio_path with
  | some p => if d.audioOnDisk then some p else none
  | none => none

/-- The clip-duration decision of the segment loop: a measured duration
above `0.01` s drives the clip; otherwise (missing, zero or too small)
the configured default slide duration is used. -/
def clipDuration (dur : Option ℚ) (defaultDur : ℚ) : ℚ :=
  match dur with
  | some q => if q > 1/100 then q else defaultDur
  | none => defaultDur

/-- The audio argument the segment loop passes to `create_video_segment`:
`audio_path if clip_duration == duration else None` (comparing the chosen
clip duration with the raw `audio_duration`; a `None` duration never
compares equal). -/
def audioForSegment (d : SlideInput) (defaultDur : ℚ) : Option String :=
  match d.audio_duration with
  | some q =>
      if clipDuration d.audio_duration defaultDur = q
      then resolvedAudioPath d else none
  | none => none

/-- Outcome of one `create_video_segment` call: whether it returned
`True` and whether an audio stream was muxed into the segment. -/
structure SegmentBuild where
  succeeded : Bool
  muxedAudio : Bool
  deriving DecidableEq, Repr

/-- The step-2 gate of `create_video_segment`: audio is muxed only when
an audio path was supplied, the file exists, its size exceeds 100 bytes,
and the segment duration exceeds `0.01` s. -/
def muxCondition (audio : Option String) (audioOnDisk : Bool)
    (audioSize : Nat) (duration : ℚ) : Bool :=
  match audio with
  | some _ => audioOnDisk && decide (audioSize > 100) &&
      decide (duration > 1/100)
  | none => false

/-- `create_video_segment` of `video_synthesizer.py`.  `step1Ok` is the
silent-clip encode, `step2Ok` the audio mux, `moveOk` the rename of the
silent clip into place when no audio is muxed. -/
def create_video_segment (ffmpegFound : Bool) (duration : ℚ)
    (audio : Option String) (audioOnDisk : Bool) (audioSize : Nat)
    (step1Ok step2Ok moveOk : Bool) : SegmentBuild :=
  if !ffmpegFound then ⟨false, false⟩
  else if !step1Ok then ⟨false, false⟩
  else if muxCondition audio audioOnDisk audioSize duration
  then ⟨step2Ok, step2Ok⟩
  else ⟨moveOk, false⟩

/-- The segment loop of `create_video_from_data`: slides with a missing
or non-existent image are skipped (`continue`); a failed segment build
aborts the whole synthesis (`none`); otherwise one segment per remaining
slide, in order.  `segOk n` is the build outcome for the slide numbered
`n`. -/
def buildSegments (segOk : Nat → Bool) : List SlideInput → Option (List Nat)
  | [] => some []
  | d :: rest =>
    if !imageValid d then buildSegments segOk rest
    else if segOk d.slide_number then
      (buildSegments segOk rest).map (d.slide_number :: ·)
    else none

/-- The facts about one audio path handed to `generate_subtitles`:
the path value, whether the file exists, and its size. -/
structure AudioFileInfo where
  pathGiven : Option String
  onDisk : Bool
  size : Nat
  deriving DecidableEq, Repr

/-- The input filter of `generate_subtitles`: only paths that are
non-`None`, exist on disk and exceed 100 bytes are kept. -/
def validAudioFiles (files : List AudioFileInfo) : List AudioFileInfo :=
  files.filter fun f => f.pathGiven.isSome && f.onDisk &&
    decide (f.size > 100)

/-- `generate_subtitles` of `video_synthesizer.py`: with no valid audio
files it returns `False`; otherwise it succeeds exactly when the ffmpeg
audio concat and the whisper transcription-plus-save both succeed. -/
def generate_subtitles (files : List AudioFileInfo)
    (concatOk asrOk : Bool) : Bool :=
  if (validAudioFiles files).isEmpty then false
  else concatOk && asrOk

/-- Scan for the substring `-->` in a subtitle line. -/
def hasArrowFrom : List Char → Bool
  | [] => false
  | '-' :: '-' :: '>' :: _ => true
  | _ :: rest => hasArrowFrom rest

/-- The per-line test of the SRT validity check in
`create_video_from_data`: a stripped line counts as subtitle text when it
is non-empty, not all digits, and does not contain `-->`. -/
def srtLineIsText (l : String) : Bool :=
  let t := l.trim
  !t.isEmpty && !(t.toList.all Char.isDigit) && !hasArrowFrom t.toList

/-- A subtitle file has usable text when some line passes
`srtLineIsText`. -/
def srtHasTextLine (lines : List String) : Bool :=
  lines.any srtLineIsText

/-- The `srt_is_valid` check of `create_video_from_data`: generation
reported success, the file exists, it is larger than 5 bytes, and it
contains at least one non-timestamp text line. -/
def srt_is_valid (generated srtOnDisk : Bool) (size : Nat)
    (lines : List String) : Bool :=
  generated && srtOnDisk && decide (size > 5) && srtHasTextLine lines

/-- The audio inputs `create_video_from_data` hands to
`generate_subtitles`: the audio paths of the records whose
`audio_duration` exceeds `0.01` s. -/
def subtitleInputs (records : List SlideInput) : List AudioFileInfo :=
  (records.filter fun d =>
    match d.audio_duration with
    | some q => decide (q > 1/100)
    | none => false).map fun d => ⟨d.audio_path, d.audioOnDisk, d.audioSize⟩

/-- Outcome of `create_video_from_data`: the returned boolean, the slide
numbers that got a video segment, and which artifact (base video or
subtitled video) was moved to the requested output path. -/
structure SynthRun where
  ok : Bool
  segments : List Nat
  deliveredBase : Bool
  deliveredWithSubs : Bool
  deriving DecidableEq, Repr

/-- `create_video_from_data` of `video_synthesizer.py` with the external
tool calls as oracles: `segOk` per-slide segment builds, `writeListOk`
the concat-list write, `concatOk` the ffmpeg concatenation,
`subConcatOk`/`asrOk` the two phases inside `generate_subtitles`,
`srtOnDisk`/`srtSize`/`srtLines` the subtitle file found afterwards,
`burnOk` the subtitle burn-in, and `moveSubbedOk`/`moveBaseOk` the final
moves to the requested output path. -/
def create_video_from_data (records : List SlideInput)
    (ffmpegFound : Bool) (segOk : Nat → Bool)
    (writeListOk concatOk subConcatOk asrOk srtOnDisk : Bool)
    (srtSize : Nat) (srtLines : List String)
    (burnOk moveSubbedOk moveBaseOk : Bool) : SynthRun :=
  if records.isEmpty then ⟨false, [], false, false⟩
  else if !ffmpegFound then ⟨false, [], false, false⟩
  else
    match buildSegments segOk records with
    | none => ⟨false, [], false, false⟩
    | some segs =>
      if segs.isEmpty then ⟨false, segs, false, false⟩
      else if !writeListOk then ⟨false, segs, false, false⟩
      else if !concatOk then ⟨false, segs, false, false⟩
      else
        let audioIns := subtitleInputs records
        let generated :=
          if audioIns.isEmpty then false
          else generate_subtitles audioIns subConcatOk asrOk
        if srt_is_valid generated srtOnDisk srtSize srtLines then
          if burnOk then ⟨moveSubbedOk, segs, false, moveSubbedOk⟩
          else ⟨moveBaseOk, segs, moveBaseOk, false⟩
        else ⟨moveBaseOk, segs, moveBaseOk, false⟩

theorem muxCondition_false_no_mux (ffmpegFound : Bool) (duration : ℚ)
    (audio : Option String) (audioOnDisk : Bool) (audioSize : Nat)
    (step1Ok step2Ok moveOk : Bool)
    (h : muxCondition audio audioOnDisk audioSize duration = false) :
    (create_video_segment ffmpegFound duration audio audioOnDisk audioSize
      step1Ok step2Ok moveOk).muxedAudio = false := by
  cases ffmpegFound <;> cases step1Ok <;>
    simp [create_video_segment, h]

/-! ## Theorems for claim C6 -/

/-- C6: a slide record whose `audio_duration` is absent or at most the
`0.01` s threshold gets a video segment of the configured default
duration with no audio track muxed in, even when an audio file exists at
the record's `audio_path`; the measured duration drives the clip length
exactly when it exceeds the threshold. -/
theorem C6_default_segment_no_audio (d : SlideInput) (defaultDur : ℚ)
    (ffmpegFound step1Ok step2Ok moveOk : Bool) :
    ((d.audio_duration = none ∨
        (∃ q, d.audio_duration = some q ∧ q ≤ 1/100)) →
      clipDuration d.audio_duration defaultDur = defaultDur ∧
      (create_video_segment ffmpegFound
        (clipDuration d.audio_duration defaultDur)
        (audioForSegment d defaultDur) d.audioOnDisk d.audioSize
        step1Ok step2Ok moveOk).muxedAudio = false) ∧
    (∀ q, d.audio_duration = some q → 1/100 < q →
      clipDuration d.audio_duration defaultDur = q) := by
  constructor
  · intro h
    rcases h with h | ⟨q, hq, hle⟩
    · refine ⟨by rw [h]; rfl, ?_⟩
      apply muxCondition_false_no_mux
      simp [audioForSegment, h, muxCondition]
    · have hnlt : ¬(1/100 < q) := not_lt_of_le hle
      have hclip2 : clipDuration (some q) defaultDur = defaultDur := by
        simp only [clipDuration]
        rw [if_neg hnlt]
      refine ⟨by rw [hq]; exact hclip2, ?_⟩
      apply muxCondition_false_no_mux
      simp only [audioForSegment, hq, hclip2]
      by_cases hdq : defaultDur = q
      · rw [if_pos hdq]
        rcases hra : resolvedAudioPath d with _ | p
        · simp [muxCondition]
        · have hnd : ¬(1/100 < defaultDur) := by rw [hdq]; exact hnlt
          simp [muxCondition, hnd]
          intro _ _
          simpa [one_div] using le_of_not_lt hnd
      · rw [if_neg hdq]
        simp [muxCondition]
  · intro q hq hgt
    rw [hq]
    simp only [clipDuration]
    rw [if_pos hgt]

/-- Witness for C6: a record with an existing 4000-byte audio file but a
`None` duration gets a default-length (3 s) segment with no audio muxed;
a measured 2 s duration drives the clip. -/
theorem C6_default_segment_no_audio_witness :
    (clipDuration none 3 = 3 ∧
      (create_video_segment true (clipDuration none 3)
        (audioForSegment
          { slide_number := 1, image_path := some "slide_1.png",
            imageOnDisk := true, audio_path := some "segment_1.mp3",
            audioOnDisk := true, audioSize := 4000,
            audio_duration := none } 3) true 4000
        true true true).muxedAudio = false) ∧
    clipDuration (some 2) 3 = 2 := by
  constructor
  · exact (C6_default_segment_no_audio
      { slide_number := 1, image_path := some "slide_1.png",
        imageOnDisk := true, audio_path := some "segment_1.mp3",
        audioOnDisk := true, audioSize := 4000,
        audio_duration := none } 3 true true true true).1 (Or.inl rfl)
  · exact (C6_default_segment_no_audio
      { slide_number := 1, image_path := some "slide_1.png",
        imageOnDisk := true, audio_path := some "segment_1.mp3",
        audioOnDisk := true, audioSize := 4000,
        audio_duration := some 2 } 3 true true true true).2 2 rfl
      (by norm_num)

/-! ## Theorems for claim C10 -/

/-- C10: the segment loop of `create_video_from_data` silently skips
every record whose image path is absent or not on disk: provided the
remaining builds succeed, the segment list is exactly the valid-image
records in order (no abort), and when at least one valid image remains
the whole synthesis still succeeds — so the delivered video can have
fewer segments than there are records. -/
theorem C10_invalid_image_skipped (records : List SlideInput)
    (segOk : Nat → Bool)
    (h : ∀ d ∈ records, imageValid d = true → segOk d.slide_number = true) :
    buildSegments segOk records =
      some ((records.filter (fun d => imageValid d)).map
        (·.slide_number)) ∧
    (records ≠ [] → records.filter (fun d => imageValid d) ≠ [] →
      ∀ (subConcatOk asrOk srtOnDisk : Bool) (srtSize : Nat)
        (srtLines : List String) (burnOk : Bool),
        (create_video_from_data records true segOk true true subConcatOk
          asrOk srtOnDisk srtSize srtLines burnOk true true).ok = true ∧
        (create_video_from_data records true segOk true true subConcatOk
          asrOk srtOnDisk srtSize srtLines burnOk true true).segments =
          (records.filter (fun d => imageValid d)).map (·.slide_number)) := by
  have hbuild : buildSegments segOk records =
      some ((records.filter (fun d => imageValid d)).map
        (·.slide_number)) := by
    induction records with
    | nil => rfl
    | cons d rest ih =>
      have hrest := ih fun x hx hv => h x (List.mem_cons_of_mem d hx) hv
      by_cases hv : imageValid d = true
      · have hs := h d (List.mem_cons_self d rest) hv
        simp [buildSegments, hv, hs, hrest, List.filter_cons]
      · have hv2 : imageValid d = false := by
          cases hiv : imageValid d
          · rfl
          · exact absurd hiv hv
        simp [buildSegments, hv2, hrest, List.filter_cons]
  refine ⟨hbuild, ?_⟩
  intro hne hfne subConcatOk asrOk srtOnDisk srtSize srtLines burnOk
  have hrecne : records.isEmpty = false := by
    cases records with
    | nil => exact absurd rfl hne
    | cons a l => rfl
  have hsegne : ((records.filter (fun d => imageValid d)).map
      (·.slide_number)).isEmpty = false := by
    cases hfl : records.filter (fun d => imageValid d) with
    | nil => exact absurd hfl hfne
    | cons a l => simp [hfl]
  unfold create_video_from_data
  rw [hrecne, hbuild]
  simp only [Bool.false_eq_true, if_false, Bool.not_true, hsegne]
  by_cases h1 : srt_is_valid
      (if (subtitleInputs records).isEmpty then false
       else generate_subtitles (subtitleInputs records) subConcatOk asrOk)
      srtOnDisk srtSize srtLines = true
  · rw [if_pos h1]
    cases burnOk <;> exact ⟨rfl, rfl⟩
  · rw [if_neg h1]
    exact ⟨rfl, rfl⟩

/-- Witness for C10: two records, the second without an image file, yield
one segment (for slide 1) and a successful synthesis — one segment fewer
than there are records. -/
theorem C10_invalid_image_skipped_witness :
    buildSegments (fun _ => true)
      [{ slide_number := 1, image_path := some "slide_1.png",
         imageOnDisk := true, audio_path := none, audioOnDisk := false,
         audioSize := 0, audio_duration := none },
       { slide_number := 2, image_path := none, imageOnDisk := false,
         audio_path := none, audioOnDisk := false, audioSize := 0,
         audio_duration := none }] = some [1] ∧
    (create_video_from_data
      [{ slide_number := 1, image_path := some "slide_1.png",
         imageOnDisk := true, audio_path := none, audioOnDisk := false,
         audioSize := 0, audio_duration := none },
       { slide_number := 2, image_path := none, imageOnDisk := false,
         audio_path := none, audioOnDisk := false, audioSize := 0,
         audio_duration := none }] true (fun _ => true) true true true
      true true 0 [] true true true).ok = true := by
  have h := C10_invalid_image_skipped
    [{ slide_number := 1, image_path := some "slide_1.png",
       imageOnDisk := true, audio_path := none, audioOnDisk := false,
       audioSize := 0, audio_duration := none },
     { slide_number := 2, image_path := none, imageOnDisk := false,
       audio_path := none, audioOnDisk := false, audioSize := 0,
       audio_duration := none }] (fun _ => true) (by intro d _ _; rfl)
  refine ⟨by simpa using h.1, ?_⟩
  have h2 := (h.2 (by simp) (by decide) true true true 0 [] true).1
  simpa using h2

/-! ## Theorems for claim C7 -/

/-- C7: subtitles are best-effort.  `generate_subtitles` reports failure
whenever no valid audio input remains (in particular for zero valid audio
inputs); a failed generation always yields an invalid subtitle file; and
once the base video has been concatenated, an invalid subtitle file or a
failed burn-in still lets `create_video_from_data` move the un-subtitled
base video to the requested output path and return success. -/
theorem C7_subtitle_fallback :
    (∀ (files : List AudioFileInfo) (concatOk asrOk : Bool),
      validAudioFiles files = [] →
      generate_subtitles files concatOk asrOk = false) ∧
    (∀ (srtOnDisk : Bool) (srtSize : Nat) (srtLines : List String),
      srt_is_valid false srtOnDisk srtSize srtLines = false) ∧
    (∀ (records : List SlideInput) (segOk : Nat → Bool) (segs : List Nat)
      (subConcatOk asrOk srtOnDisk : Bool) (srtSize : Nat)
      (srtLines : List String) (burnOk moveSubbedOk : Bool),
      records ≠ [] → buildSegments segOk records = some segs → segs ≠ [] →
      (srt_is_valid
          (if (subtitleInputs records).isEmpty then false
           else generate_subtitles (subtitleInputs records) subConcatOk
             asrOk) srtOnDisk srtSize srtLines = false ∨ burnOk = false) →
      (create_video_from_data records true segOk true true subConcatOk
        asrOk srtOnDisk srtSize srtLines burnOk moveSubbedOk true).ok =
        true ∧
      (create_video_from_data records true segOk true true subConcatOk
        asrOk srtOnDisk srtSize srtLines burnOk moveSubbedOk
        true).deliveredBase = true) := by
  refine ⟨?_, ?_, ?_⟩
  · intro files concatOk asrOk h
    simp [generate_subtitles, h]
  · intro srtOnDisk srtSize srtLines
    simp [srt_is_valid]
  · intro records segOk segs subConcatOk asrOk srtOnDisk srtSize srtLines
      burnOk moveSubbedOk hne hb hsne hfail
    have hrecne : records.isEmpty = false := by
      cases records with
      | nil => exact absurd rfl hne
      | cons a l => rfl
    have hsegne : segs.isEmpty = false := by
      cases segs with
      | nil => exact absurd rfl hsne
      | cons a l => rfl
    unfold create_video_from_data
    rw [hrecne, hb]
    simp only [Bool.false_eq_true, if_false, Bool.not_true, hsegne]
    rcases hfail with hfail | hfail
    · rw [hfail]
      simp
    · subst hfail
      split <;> simp

/-- Witness for C7: a single-record run with no valid audio; the
subtitle-input list is empty, `generate_subtitles` fails on it, and the
run still succeeds delivering the base video. -/
theorem C7_subtitle_fallback_witness :
    generate_subtitles [] true true = false ∧
    (create_video_from_data
      [{ slide_number := 1, image_path := some "slide_1.png",
         imageOnDisk := true, audio_path := none, audioOnDisk := false,
         audioSize := 0, audio_duration := none }] true (fun _ => true)
      true true true true true 0 [] true true true).ok = true ∧
    (create_video_from_data
      [{ slide_number := 1, image_path := some "slide_1.png",
         imageOnDisk := true, audio_path := none, audioOnDisk := false,
         audioSize := 0, audio_duration := none }] true (fun _ => true)
      true true true true true 0 [] true true true).deliveredBase =
      true := by
  have h1 := C7_subtitle_fallback.1 [] true true rfl
  have h3 := C7_subtitle_fallback.2.2
    [{ slide_number := 1, image_path := some "slide_1.png",
       imageOnDisk := true, audio_path := none, audioOnDisk := false,
       audioSize := 0, audio_duration := none }] (fun _ => true) [1]
    true true true 0 [] true true (by simp) (by decide) (by decide)
    (Or.inl (by decide))
  exact ⟨h1, h3.1, h3.2⟩

/-! ## Slide export — `ppt_exporter_libreoffice.py` and
`ppt_exporter_win.py` -/

/-- Which export strategy wrote a file into the shared image directory:
the failed first strategy (PowerPoint COM) or the fallback (LibreOffice
via pdf2image). -/
inductive FileTag
  | fromFailed
  | fromFallback
  deriving DecidableEq, Repr

/-- The contents of the image output directory: file names with the
strategy that produced each file. -/
abbrev DirState := List (String × FileTag)

/-- The file names present in the directory. -/
def fsNames (fs : DirState) : List String := fs.map (·.1)

/-- Existence test for a file name. -/
def fsHas (fs : DirState) (n : String) : Bool := (fsNames fs).contains n

/-- `unlink`: remove a file name from the directory. -/
def fsUnlink (fs : DirState) (n : String) : DirState :=
  fs.filter fun e => e.1 != n

/-- Look up the producer of a file, if present. -/
def fsLookup (fs : DirState) (n : String) : Option FileTag :=
  (fs.find? fun e => e.1 == n).map (·.2)

/-- `rename`: move a file to a new name, keeping its content's
producer.  A missing source leaves the directory unchanged (the caller
handles the raised `OSError`). -/
def fsRename (fs : DirState) (src tgt : String) : DirState :=
  match fsLookup fs src with
  | some t => fsUnlink fs src ++ [(tgt, t)]
  | none => fs

/-- Whether a character list starts with the given pattern. -/
def charsStartWith : List Char → List Char → Bool
  | _, [] => true
  | [], _ :: _ => false
  | c :: cs, p :: ps => c == p && charsStartWith cs ps

/-- Whether a character list ends with the given pattern. -/
def charsEndWith (s p : List Char) : Bool :=
  charsStartWith s.reverse p.reverse

/-- The `output_dir.glob("slide_*.png")` pattern of
`export_slides_with_libreoffice`. -/
def isSlideGlobMatch (s : String) : Bool :=
  charsStartWith s.toList "slide_".toList &&
    charsEndWith s.toList ".png".toList

/-- Lexicographic code-point comparison of two character lists — the
order Python's `sorted` applies to path names. -/
def charsLe : List Char → List Char → Bool
  | [], _ => true
  | _ :: _, [] => false
  | c :: cs, d :: ds => if c == d then charsLe cs ds else decide (c < d)

/-- Lexicographic code-point comparison of file names. -/
def nameLe (s t : String) : Bool := charsLe s.toList t.toList

/-- Insertion into a sorted list of names (Python `sorted`, lexicographic
by code point). -/
def insertSorted (s : String) : List String → List String
  | [] => [s]
  | t :: rest =>
    if nameLe s t then s :: t :: rest else t :: insertSorted s rest

/-- Sorting of the globbed names. -/
def sortNames : List String → List String
  | [] => []
  | s :: rest => insertSorted s (sortNames rest)

/-- The renaming loop of `export_slides_with_libreoffice`: the `i`-th
globbed name is renamed to `slide_{i+1}.png` (deleting a pre-existing
file of that name first, unless it is the same path), and the new path is
appended to `exported_files`; if the rename fails because the source is
gone, the old path is appended instead. -/
def renameLoop : DirState → List String → Nat → DirState × List String
  | fs, [], _ => (fs, [])
  | fs, src :: rest, i =>
    let tgt := "slide_" ++ toString (i + 1) ++ ".png"
    let fs1 := if fsHas fs tgt && src != tgt then fsUnlink fs tgt else fs
    match fsLookup fs1 src with
    | some _ =>
        let out := renameLoop (fsRename fs1 src tgt) rest (i + 1)
        (out.1, tgt :: out.2)
    | none =>
        let out := renameLoop fs1 rest (i + 1)
        (out.1, src :: out.2)

/-- The collection step of `export_slides_with_libreoffice` after
pdf2image has written its pages: glob `slide_*.png` over the whole shared
output directory, sort, and run the renaming loop.  Returns the final
directory and the `exported_files` list the function returns. -/
def collectExportedImages (fs : DirState) : DirState × List String :=
  renameLoop fs (sortNames ((fsNames fs).filter isSlideGlobMatch)) 0

/-- Canonical name `slide_{j+1}.png` used by the PowerPoint COM exporter
for its per-slide files (and by the rename loop as target names). -/
def slideCanonicalName (j : Nat) : String :=
  "slide_" ++ toString (j + 1) ++ ".png"

/-- A representative raw pdf2image output name for page `j+1` (prefix
`slide_`, page counter after a dash). -/
def pdf2imageName (j : Nat) : String :=
  "slide_-0" ++ toString (j + 1) ++ ".png"

/-- The C2 scenario: the first strategy failed after writing
`leftoverCount` canonical `slide_j.png` files into the shared image
directory; the fallback converted `pages` PDF pages into the same
directory; the fallback then globs, sorts and renames. -/
def exportAfterFailedFirstStrategy (leftoverCount pages : Nat) :
    DirState × List String :=
  collectExportedImages
    (((List.range leftoverCount).map fun j =>
        (slideCanonicalName j, FileTag.fromFailed)) ++
     ((List.range pages).map fun j =>
        (pdf2imageName j, FileTag.fromFallback)))

theorem renameLoop_length (olds : List String) :
    ∀ (fs : DirState) (i : Nat),
      (renameLoop fs olds i).2.length = olds.length := by
  induction olds with
  | nil => intro fs i; rfl
  | cons src rest ih =>
    intro fs i
    rw [renameLoop]
    rcases h : fsLookup
        (if fsHas fs ("slide_" ++ toString (i + 1) ++ ".png") &&
          src != ("slide_" ++ toString (i + 1) ++ ".png")
         then fsUnlink fs ("slide_" ++ toString (i + 1) ++ ".png")
         else fs) src with _ | t
    · simp [h, ih]
    · simp [h, ih]

theorem insertSorted_length (s : String) (l : List String) :
    (insertSorted s l).length = l.length + 1 := by
  induction l with
  | nil => rfl
  | cons t rest ih =>
    rw [insertSorted]
    split
    · rfl
    · simp [ih]

theorem sortNames_length (l : List String) :
    (sortNames l).length = l.length := by
  induction l with
  | nil => rfl
  | cons s rest ih => simp [sortNames, insertSorted_length, ih]

/-! ## Theorems for claim C2 -/

/-- C2 counterexample: the first strategy fails after writing
`slide_1.png` and `slide_2.png` into the shared image directory, and the
fallback then converts a 3-page PDF there.  The export step returns a
5-entry list — the two files leaked by the failed strategy are swept up
by the `slide_*.png` glob — instead of the 3 images the fallback
produced; moreover the first returned path no longer exists in the
directory after the renaming loop has moved everything around. -/
theorem C2_leaked_files_counterexample :
    (exportAfterFailedFirstStrategy 2 3).2 =
      ["slide_1.png", "slide_2.png", "slide_3.png", "slide_4.png",
       "slide_5.png"] ∧
    (exportAfterFailedFirstStrategy 2 3).2.length ≠ 3 ∧
    fsHas (exportAfterFailedFirstStrategy 2 3).1 "slide_1.png" = false := by
  refine ⟨by decide, by decide, by decide⟩

/-- C2 amended: the fallback does not isolate itself from the failed
strategy's partial output: its returned list has exactly one entry per
`slide_*.png` file found in the shared output directory — leftover files
of the failed strategy included — not one entry per page it converted
itself. -/
theorem C2_returned_list_counts_all_globbed (fs : DirState) :
    (collectExportedImages fs).2.length =
      ((fsNames fs).filter isSlideGlobMatch).length := by
  rw [collectExportedImages, renameLoop_length, sortNames_length]

/-! ## Pipeline orchestration — `run_full_process` in
`main_controller.py` and `WorkerThread.run` in `gui_app.py` -/

/-- The observable actions of one orchestrator run, in order. -/
inductive CtrlEvent
  | deleteExistingOutput
  | processPresentationCall
  | synthesizeVideoCall
  | deleteTempDir
  deriving DecidableEq, Repr

/-- Outcome of the `process_presentation` stage as the controller sees
it: an exception or a malformed/`(None, None)` result before a temp
directory is known (`failNoTemp`), a failure returned together with the
created temp directory (`failWithTemp`), or success (`ok`). -/
inductive ProcOutcome
  | failNoTemp
  | failWithTemp
  | ok
  deriving DecidableEq, Repr

/-- The part of `run_full_process` after the existing-output handling:
the processing stage, the synthesis stage, and the cleanup decisions.
On a processing failure with a known temp directory, the `except` block
deletes the temp directory when `CLEANUP_TEMP_DIR` is set; on success the
temp directory is deleted exactly when cleanup is requested; on a
synthesis failure it is always retained. -/
def controllerAfterDelete (proc : ProcOutcome) (synthOk cleanup : Bool) :
    List CtrlEvent :=
  match proc with
  | .failNoTemp => [.processPresentationCall]
  | .failWithTemp => .processPresentationCall ::
      (if cleanup then [.deleteTempDir] else [])
  | .ok => .processPresentationCall :: .synthesizeVideoCall ::
      (if synthOk && cleanup then [.deleteTempDir] else [])

/-- `run_full_process` of `main_controller.py` as its ordered event
trace.  `mkdirOk` is the base-output-directory creation, `outputExists`
whether a file already sits at the final video path, `unlinkOk` whether
its deletion succeeds (a failure aborts the run), `synthOk` whether
`create_video_from_data` returned `True` and the output file exists. -/
def run_full_process (mkdirOk outputExists unlinkOk : Bool)
    (proc : ProcOutcome) (synthOk cleanup : Bool) : List CtrlEvent :=
  if !mkdirOk then []
  else if outputExists then
    if unlinkOk then
      .deleteExistingOutput :: controllerAfterDelete proc synthOk cleanup
    else []
  else controllerAfterDelete proc synthOk cleanup

/-- Whether `run_full_process` ends in its success branch. -/
def runReportsSuccess (mkdirOk outputExists unlinkOk : Bool)
    (proc : ProcOutcome) (synthOk : Bool) : Bool :=
  mkdirOk && (!outputExists || unlinkOk) && decide (proc = .ok) && synthOk

/-- `WorkerThread.run` of `gui_app.py` as its ordered event trace: the
same delete-before-work policy (a failed unlink raises and aborts), but
on any failure the temp directory is always retained — the GUI worker
deletes it only on success with cleanup requested. -/
def workerRunEvents (mkdirOk outputExists unlinkOk : Bool)
    (proc : ProcOutcome) (synthOk cleanup : Bool) : List CtrlEvent :=
  if !mkdirOk then []
  else if outputExists && !unlinkOk then []
  else
    (if outputExists then [CtrlEvent.deleteExistingOutput] else []) ++
    (match proc with
     | .failNoTemp => [.processPresentationCall]
     | .failWithTemp => [.processPresentationCall]
     | .ok => .processPresentationCall :: .synthesizeVideoCall ::
         (if synthOk && cleanup then [.deleteTempDir] else []))

/-! ## Theorems for claim C3 -/

/-- C3 counterexample: a run in which the processing stage fails (after
creating its temp directory) with the cleanup flag set is a failed run,
yet `run_full_process` deletes the temp directory — the claim that a
failed run never deletes the temp directory is false. -/
theorem C3_failed_run_deletes_temp_counterexample :
    runReportsSuccess true false true .failWithTemp true = false ∧
    run_full_process true false true .failWithTemp true true =
      [.processPresentationCall, .deleteTempDir] := by
  refine ⟨by decide, by decide⟩

/-- C3 amended: the temp directory is retained on a synthesis-stage
failure and whenever cleanup is not requested; but when the processing
stage fails after creating the temp directory and cleanup is requested,
`run_full_process` deletes it even though the run failed. -/
theorem C3_temp_dir_retention :
    (∀ (mkdirOk outputExists unlinkOk cleanup : Bool),
      CtrlEvent.deleteTempDir ∉
        run_full_process mkdirOk outputExists unlinkOk .ok false cleanup) ∧
    (∀ (mkdirOk outputExists unlinkOk : Bool) (proc : ProcOutcome)
      (synthOk : Bool),
      CtrlEvent.deleteTempDir ∉
        run_full_process mkdirOk outputExists unlinkOk proc synthOk
          false) ∧
    (∀ (outputExists unlinkOk : Bool),
      (outputExists = true → unlinkOk = true) →
      CtrlEvent.deleteTempDir ∈
        run_full_process true outputExists unlinkOk .failWithTemp true
          true ∧
      runReportsSuccess true outputExists unlinkOk .failWithTemp true =
        false) := by
  refine ⟨?_, ?_, ?_⟩
  · intro mkdirOk outputExists unlinkOk cleanup
    cases mkdirOk <;> cases outputExists <;> cases unlinkOk <;>
      cases cleanup <;> decide
  · intro mkdirOk outputExists unlinkOk proc synthOk
    cases mkdirOk <;> cases outputExists <;> cases unlinkOk <;>
      cases proc <;> cases synthOk <;> decide
  · intro outputExists unlinkOk h
    cases outputExists with
    | false => cases unlinkOk <;> exact ⟨by decide, by decide⟩
    | true =>
      rw [h rfl]
      exact ⟨by decide, by decide⟩

/-- Witness for C3's amended statement at concrete inputs. -/
theorem C3_temp_dir_retention_witness :
    CtrlEvent.deleteTempDir ∉
      run_full_process true false true .ok false true ∧
    CtrlEvent.deleteTempDir ∉
      run_full_process true false true .failWithTemp true false ∧
    CtrlEvent.deleteTempDir ∈
      run_full_process true true true .failWithTemp true true :=
  ⟨C3_temp_dir_retention.1 true false true true,
   C3_temp_dir_retention.2.1 true false true .failWithTemp true,
   (C3_temp_dir_retention.2.2 true true (fun _ => rfl)).1⟩

/-! ## Theorems for claim C8 -/

/-- C8: when a file already sits at the target output path, both the CLI
controller and the GUI worker delete it as their very first action,
before the processing or synthesis stage runs; and when that deletion
fails, both abort with no pipeline work performed and no success
reported. -/
theorem C8_delete_existing_output_first :
    (∀ (proc : ProcOutcome) (synthOk cleanup : Bool),
      run_full_process true true false proc synthOk cleanup = [] ∧
      runReportsSuccess true true false proc synthOk = false ∧
      workerRunEvents true true false proc synthOk cleanup = []) ∧
    (∀ (proc : ProcOutcome) (synthOk cleanup : Bool),
      (run_full_process true true true proc synthOk cleanup).head? =
        some .deleteExistingOutput ∧
      (workerRunEvents true true true proc synthOk cleanup).head? =
        some .deleteExistingOutput) := by
  constructor
  · intro proc synthOk cleanup
    cases proc <;> cases synthOk <;> cases cleanup <;> decide
  · intro proc synthOk cleanup
    cases proc <;> cases synthOk <;> cases cleanup <;> decide

end PPTVideo
